import Mathlib

/-!
Shallow embedding of the flask-parameter-validation engine
(`parameter_types/parameter.py` and `parameter_types/query.py`).

Python runtime values are modelled by the inductive `Value`; Python
exceptions that the engine raises or propagates are modelled by `PyErr`
(a `ValueError` carrying its message, plus the `TypeError` and
`AttributeError` kinds that the engine can run into at runtime).
Fallible Python code becomes `Except PyErr _`.

External delegates (dateutil free-form parsing, `datetime.strptime`,
`time.fromisoformat`, `date.fromisoformat`, `json.loads`, `re.match`,
`jsonschema.validate`) are fields of the `Delegates` record: the engine
logic under verification is translated exactly from the source, while
the delegates stay abstract in the theorems and are instantiated with
small concrete models only in witnesses and counterexamples.
-/

/-- Error model for the Python exceptions the engine can produce.
Messages of `valueError` are translated verbatim from the source
(they are part of the engine contract); messages of `typeError` and
`attributeError` summarise the corresponding Python runtime messages
(quote characters in the CPython originals are omitted). -/
inductive PyErr where
  | valueError (msg : String)
  | typeError (msg : String)
  | attributeError (msg : String)
  deriving Repr, DecidableEq

/-- Exact decimal model of a Python float literal: the represented
number is `mantissa / 10 ^ exponent`.  No claim depends on float
arithmetic; only coercion success or failure matters. -/
structure PyFloat where
  mantissa : Int
  exponent : Nat
  deriving Repr, DecidableEq

/-- Model of `datetime.datetime` restricted to the fields the claims
mention. -/
structure PyDatetime where
  year : Nat
  month : Nat
  day : Nat
  hour : Nat
  minute : Nat
  second : Nat
  deriving Repr, DecidableEq

/-- Model of `datetime.time`. -/
structure PyTime where
  hour : Nat
  minute : Nat
  second : Nat
  deriving Repr, DecidableEq

/-- Model of `datetime.date`. -/
structure PyDate where
  year : Nat
  month : Nat
  day : Nat
  deriving Repr, DecidableEq

/-- Backing flavour of a Python enum class: `enum.IntEnum` or
`enum.StrEnum` (the two flavours the source special-cases). -/
inductive EnumKind where
  | intEnum
  | strEnum
  deriving Repr, DecidableEq

/-- Model of an enum class: its name and its member backing values.
An `IntEnum` class is described by `intMembers`, a `StrEnum` class by
`strMembers`. -/
structure EnumType where
  ename : String
  kind : EnumKind
  intMembers : List Int
  strMembers : List String
  deriving Repr, DecidableEq

/-- A Python type object as it appears in an acceptable-types list.
`tNone` stands for `NoneType` (the expansion of `Optional`). -/
inductive PyType where
  | tNone
  | tBool
  | tInt
  | tFloat
  | tStr
  | tList
  | tDict
  | tDatetime
  | tTime
  | tDate
  | tEnum (e : EnumType)
  deriving Repr, DecidableEq

/-- A Python runtime value.  `vTuple` is separate from `vList` because
`func_helper` discriminates with `type(x) is tuple`.  `vEnum e b`
is the member of enum class `e` whose backing value is `b`. -/
inductive Value where
  | vNone
  | vBool (b : Bool)
  | vInt (n : Int)
  | vFloat (f : PyFloat)
  | vStr (s : String)
  | vList (xs : List Value)
  | vTuple (xs : List Value)
  | vDict (kvs : List (String × Value))
  | vDatetime (dt : PyDatetime)
  | vTime (t : PyTime)
  | vDate (d : PyDate)
  | vEnum (e : EnumType) (backing : Value)
  deriving Repr

/-- Whether a value is Python `None` (`value is None`). -/
def Value.isNone : Value → Bool
  | .vNone => true
  | _ => false

/-- Model of `str(type(x))` as used in the misconfiguration message of
`func_helper` (CPython renders these with quote characters, which are
omitted here). -/
def pyTypeStr : Value → String
  | .vNone => "<class NoneType>"
  | .vBool _ => "<class bool>"
  | .vInt _ => "<class int>"
  | .vFloat _ => "<class float>"
  | .vStr _ => "<class str>"
  | .vList _ => "<class list>"
  | .vTuple _ => "<class tuple>"
  | .vDict _ => "<class dict>"
  | .vDatetime _ => "<class datetime.datetime>"
  | .vTime _ => "<class datetime.time>"
  | .vDate _ => "<class datetime.date>"
  | .vEnum e _ => "<enum " ++ e.ename ++ ">"

/-- Model of Python `str(value)`.  It is exact on the scalar types the
claims exercise (`str`, `int`, `bool`, `None`); for containers and
date values the rendering is schematic, which no claim depends on. -/
def pyStr : Value → String
  | .vNone => "None"
  | .vBool b => if b then "True" else "False"
  | .vInt n => toString n
  | .vFloat f => toString f.mantissa ++ "x10^-" ++ toString f.exponent
  | .vStr s => s
  | .vList xs => "[" ++ toString xs.length ++ " items]"
  | .vTuple xs => "(" ++ toString xs.length ++ " items)"
  | .vDict kvs => "(dict of " ++ toString kvs.length ++ " items)"
  | .vDatetime dt =>
      toString dt.year ++ "-" ++ toString dt.month ++ "-" ++ toString dt.day ++ " " ++
      toString dt.hour ++ ":" ++ toString dt.minute ++ ":" ++ toString dt.second
  | .vTime t => toString t.hour ++ ":" ++ toString t.minute ++ ":" ++ toString t.second
  | .vDate d => toString d.year ++ "-" ++ toString d.month ++ "-" ++ toString d.day
  | .vEnum e b => e.ename ++ "." ++ (pyStr b)

/-- Model of Python `len(value)`: defined on sized containers and
strings, a `TypeError` on everything else. -/
def pyLen : Value → Except PyErr Nat
  | .vStr s => .ok s.length
  | .vList xs => .ok xs.length
  | .vTuple xs => .ok xs.length
  | .vDict kvs => .ok kvs.length
  | _ => .error (.typeError "object has no len")

/-- Digit-string to number; fails on the empty list and on any
non-digit character. -/
def digitsToNat (cs : List Char) : Option Nat :=
  if cs.isEmpty then none
  else cs.foldl
    (fun acc? c => acc?.bind (fun acc => if c.isDigit then some (acc * 10 + (c.toNat - 48)) else none))
    (some 0)

/-- Model of the Python `int()` literal grammar on strings: an optional
sign followed by a nonempty digit run. -/
def parseIntLit (s : String) : Option Int :=
  match s.toList with
  | [] => none
  | c :: rest =>
    if c = '-' then (digitsToNat rest).map (fun n => -(n : Int))
    else if c = '+' then (digitsToNat rest).map (fun n => (n : Int))
    else (digitsToNat (c :: rest)).map (fun n => (n : Int))

/-- Model of the Python `float()` literal grammar on strings restricted
to plain decimal literals (optional sign, digits, optional dot,
digits); exponent and special forms are not modelled, and none of the
claims exercise them. -/
def parseFloatLit (s : String) : Option PyFloat :=
  let cs := s.toList
  let signedBody : Bool × List Char :=
    match cs with
    | c :: rest => if c = '-' then (true, rest) else if c = '+' then (false, rest) else (false, cs)
    | [] => (false, [])
  let neg := signedBody.1
  let body := signedBody.2
  let ip := body.takeWhile (fun c => c ≠ '.')
  let rest := body.dropWhile (fun c => c ≠ '.')
  let digits? : Option Nat × Nat :=
    match rest with
    | [] => ((digitsToNat ip), 0)
    | _ :: fp => ((digitsToNat (ip ++ fp)), fp.length)
  match digits?.1 with
  | some n => some ⟨if neg then -(n : Int) else (n : Int), digits?.2⟩
  | none => none

/-- Truncation toward zero of a `PyFloat`, as Python `int()` does on
floats. -/
def pyFloatTrunc (f : PyFloat) : Int :=
  Int.tdiv f.mantissa ((10 : Int) ^ f.exponent)

/-- Model of Python `int(value)`: identity on ints, `True`/`False` map
to 1/0, floats truncate toward zero, strings go through the literal
grammar (a `ValueError` on mismatch), everything else is a
`TypeError`. -/
def pyInt : Value → Except PyErr Int
  | .vInt n => .ok n
  | .vBool b => .ok (if b then 1 else 0)
  | .vFloat f => .ok (pyFloatTrunc f)
  | .vStr s =>
    match parseIntLit s with
    | some n => .ok n
    | none => .error (.valueError ("invalid literal for int with base 10: " ++ s))
  | _ => .error (.typeError "int argument must be a string or a number")

/-- Model of Python `float(value)`: exact on ints and bools, literal
grammar on strings (a `ValueError` on mismatch), a `TypeError` on
containers and `None`. -/
def pyFloat : Value → Except PyErr PyFloat
  | .vInt n => .ok ⟨n, 0⟩
  | .vBool b => .ok ⟨if b then 1 else 0, 0⟩
  | .vFloat f => .ok f
  | .vStr s =>
    match parseFloatLit s with
    | some f => .ok f
    | none => .error (.valueError ("could not convert string to float: " ++ s))
  | _ => .error (.typeError "float argument must be a string or a number")

/-- External delegates the engine calls out to (spec section 6):
free-form date-time parsing (`dateutil.parser.parse`), strict
format parsing (`datetime.strptime`, taking the input and then the
format), ISO parsers for time and date, `json.loads` (failure on the
string means Python `ValueError`), prefix-anchored regex matching
(the truthiness of `re.match(pattern, s)`), and `jsonschema.validate`
(returning the failure message, or `none` when the document
validates). -/
structure Delegates where
  freeParse : String → Option PyDatetime
  strptime : String → String → Option PyDatetime
  timeFromIso : String → Option PyTime
  dateFromIso : String → Option PyDate
  jsonLoads : String → Option Value
  reMatch : String → String → Bool
  jsonschemaValidate : Value → Value → Option String

/-- The Constraint Set: translation of `Parameter.__init__`
(`parameter.py` lines 17-50).  Every constraint is optional; the
custom predicate is a Python callable returning an arbitrary runtime
value, modelled as `Value → Value`. -/
structure Parameter where
  default : Option Value := none
  min_str_length : Option Nat := none
  max_str_length : Option Nat := none
  min_list_length : Option Nat := none
  max_list_length : Option Nat := none
  min_int : Option Int := none
  max_int : Option Int := none
  whitelist : Option String := none
  blacklist : Option (List String) := none
  pattern : Option String := none
  func : Option (Value → Value) := none
  datetime_format : Option String := none
  comment : Option String := none
  alias_ : Option String := none
  json_schema : Option Value := none

/-- A Constraint Set with no constraints configured. -/
def Parameter.empty : Parameter := {}

/-- Translation of `Parameter.func_helper` (`parameter.py` lines
52-68).  Note the faithful fall-through: a predicate result that is
neither a `bool` nor a `tuple` matches none of the two `type(...)`
tests in the source and the helper returns without raising. -/
def funcHelper (f : Value → Value) (v : Value) : Except PyErr Unit :=
  match f v with
  | .vBool b =>
    if b then .ok ()
    else .error (.valueError "value does not match the validator function.")
  | .vTuple xs =>
    match xs with
    | [.vBool b, .vStr msg] =>
      if b then .ok () else .error (.valueError msg)
    | _ =>
      .error (.valueError ("validator function returned incorrect type: " ++
        pyTypeStr (.vTuple xs) ++ ", should return bool or (bool, str)"))
  | _ => .ok ()

/-- Min list length check (`parameter.py` lines 76-80). -/
def checkMinList (p : Parameter) (xs : List Value) : Except PyErr Unit :=
  match p.min_list_length with
  | some m =>
    if xs.length < m then
      .error (.valueError ("must have at least " ++ toString m ++ " items."))
    else .ok ()
  | none => .ok ()

/-- Max list length check (`parameter.py` lines 82-86); the doubled
word in the message is verbatim from the source. -/
def checkMaxList (p : Parameter) (xs : List Value) : Except PyErr Unit :=
  match p.max_list_length with
  | some m =>
    if xs.length > m then
      .error (.valueError ("must have have a maximum of " ++ toString m ++ " items."))
    else .ok ()
  | none => .ok ()

/-- List-level custom predicate call (`parameter.py` lines 87-88). -/
def checkFuncList (p : Parameter) (v : Value) : Except PyErr Unit :=
  match p.func with
  | some f => funcHelper f v
  | none => .ok ()

/-- JSON-schema delegate call, wrapping the delegate failure
(`parameter.py` lines 89-93 and 95-99). -/
def checkSchemaIf (D : Delegates) (p : Parameter) (v : Value) : Except PyErr Unit :=
  match p.json_schema with
  | some sch =>
    match D.jsonschemaValidate v sch with
    | some msg => .error (.valueError ("failed JSON Schema validation: " ++ msg))
    | none => .ok ()
  | none => .ok ()

/-- Min string length check on one unit (`parameter.py` lines
107-111); `len` can itself raise on unsized values. -/
def checkMinStr (p : Parameter) (v : Value) : Except PyErr Unit :=
  match p.min_str_length with
  | some m =>
    pyLen v >>= fun n =>
      if n < m then
        .error (.valueError ("must have at least " ++ toString m ++ " characters."))
      else .ok ()
  | none => .ok ()

/-- Max string length check on one unit (`parameter.py` lines
113-117). -/
def checkMaxStr (p : Parameter) (v : Value) : Except PyErr Unit :=
  match p.max_str_length with
  | some m =>
    pyLen v >>= fun n =>
      if n > m then
        .error (.valueError ("must have a maximum of " ++ toString m ++ " characters."))
      else .ok ()
  | none => .ok ()

/-- Whitelist check on one unit (`parameter.py` lines 119-124): every
character of `str(value)` must occur in the whitelist string. -/
def checkWhitelist (p : Parameter) (v : Value) : Except PyErr Unit :=
  match p.whitelist with
  | some wl =>
    if (pyStr v).toList.all (fun c => wl.toList.contains c) then .ok ()
    else .error (.valueError ("must contain only characters: " ++ wl))
  | none => .ok ()

/-- Whether the first character list occurs at the start of the
second. -/
def listAtStart : List Char → List Char → Bool
  | [], _ => true
  | _ :: _, [] => false
  | c :: cs, d :: ds => c = d && listAtStart cs ds

/-- Whether the first character list occurs contiguously anywhere in
the second. -/
def listContainsSeq (needle : List Char) : List Char → Bool
  | [] => needle.isEmpty
  | c :: cs => listAtStart needle (c :: cs) || listContainsSeq needle cs

/-- Substring test used by the blacklist check (Python `bad in s`). -/
def strContains (hay bad : String) : Bool :=
  listContainsSeq bad.toList hay.toList

/-- Blacklist check on one unit (`parameter.py` lines 126-131): the
first configured entry occurring as a substring of `str(value)` is
reported. -/
def checkBlacklist (p : Parameter) (v : Value) : Except PyErr Unit :=
  match p.blacklist with
  | some bl =>
    match bl.find? (fun bad => strContains (pyStr v) bad) with
    | some bad => .error (.valueError ("must not contain: " ++ bad))
    | none => .ok ()
  | none => .ok ()

/-- Min numeric bound on one unit (`parameter.py` lines 133-137):
`int(value)` can itself raise, and that exception propagates. -/
def checkMinInt (p : Parameter) (v : Value) : Except PyErr Unit :=
  match p.min_int with
  | some m =>
    pyInt v >>= fun n =>
      if n < m then
        .error (.valueError ("must be at least " ++ toString m ++ "."))
      else .ok ()
  | none => .ok ()

/-- Max numeric bound on one unit (`parameter.py` lines 139-143). -/
def checkMaxInt (p : Parameter) (v : Value) : Except PyErr Unit :=
  match p.max_int with
  | some m =>
    pyInt v >>= fun n =>
      if n > m then
        .error (.valueError ("must be at most " ++ toString m ++ "."))
      else .ok ()
  | none => .ok ()

/-- Regex check on one unit (`parameter.py` lines 146-150).  The
source passes the raw `value` (not `str(value)`) to `re.match`, so a
non-string unit makes `re.match` raise a `TypeError`. -/
def checkPattern (D : Delegates) (p : Parameter) (v : Value) : Except PyErr Unit :=
  match p.pattern with
  | some pat =>
    match v with
    | .vStr s =>
      if D.reMatch pat s then .ok ()
      else .error (.valueError ("pattern does not match: " ++ pat ++ "."))
    | _ => .error (.typeError "expected string or bytes-like object")
  | none => .ok ()

/-- Per-unit custom predicate call (`parameter.py` lines 153-154): it
runs only when the original value was not a list. -/
def checkFuncUnit (p : Parameter) (origList : Bool) (v : Value) : Except PyErr Unit :=
  match p.func with
  | some f => if origList then .ok () else funcHelper f v
  | none => .ok ()

/-- One iteration of the per-unit loop of `Parameter.validate`
(`parameter.py` lines 105-154), in the fixed source order. -/
def validateUnit (D : Delegates) (p : Parameter) (origList : Bool) (v : Value) : Except PyErr Unit :=
  checkMinStr p v >>= fun _ =>
  checkMaxStr p v >>= fun _ =>
  checkWhitelist p v >>= fun _ =>
  checkBlacklist p v >>= fun _ =>
  checkMinInt p v >>= fun _ =>
  checkMaxInt p v >>= fun _ =>
  checkPattern D p v >>= fun _ =>
  checkFuncUnit p origList v

/-- The per-unit loop (`for value in values`). -/
def validateAll (D : Delegates) (p : Parameter) (origList : Bool) : List Value → Except PyErr Unit
  | [] => .ok ()
  | v :: rest => validateUnit D p origList v >>= fun _ => validateAll D p origList rest

/-- Translation of `Parameter.validate` (`parameter.py` lines 71-156):
a list first gets its length bounds, list-level predicate and schema
check and then every element is a validation unit; a dict gets the
schema check and is then a single unit; anything else is a single
unit.  Success returns `True` as in the source. -/
def Parameter.validate (p : Parameter) (D : Delegates) (value : Value) : Except PyErr Bool :=
  (match value with
   | .vList xs =>
     checkMinList p xs >>= fun _ =>
     checkMaxList p xs >>= fun _ =>
     checkFuncList p value >>= fun _ =>
     checkSchemaIf D p value >>= fun _ =>
     validateAll D p true xs
   | .vDict _ =>
     checkSchemaIf D p value >>= fun _ =>
     validateAll D p false [value]
   | _ => validateAll D p false [value]) >>= fun _ => .ok true

/-- Construction of an enum member from a coerced value
(`parameter.py` lines 188-191): an `IntEnum` class first applies
`int()` to the value (whose own exceptions propagate) and then looks
the result up among the member values; a `StrEnum` class looks the
value up directly.  A missed lookup is the `ValueError` that Python
enum construction raises. -/
def enumConstruct (e : EnumType) (v : Value) : Except PyErr Value :=
  match e.kind with
  | .intEnum =>
    match pyInt v with
    | .ok n =>
      if n ∈ e.intMembers then .ok (.vEnum e (.vInt n))
      else .error (.valueError (toString n ++ " is not a valid " ++ e.ename))
    | .error err => .error err
  | .strEnum =>
    match v with
    | .vStr s =>
      if s ∈ e.strMembers then .ok (.vEnum e (.vStr s))
      else .error (.valueError (s ++ " is not a valid " ++ e.ename))
    | _ => .error (.valueError (pyStr v ++ " is not a valid " ++ e.ename))

/-- The final branch of `Parameter.convert` (`parameter.py` lines
187-192): the enum special case applies exactly when the
acceptable-types list has exactly one element and that element is a
`StrEnum` or `IntEnum` subclass; otherwise the value is returned
unchanged. -/
def enumBranch (value : Value) : List PyType → Except PyErr Value
  | [t] =>
    match t with
    | .tEnum e => enumConstruct e value
    | _ => .ok value
  | _ => .ok value

/-- Translation of `Parameter.convert` (`parameter.py` lines
158-192): the optional short-circuit, then the date-time branch
(free-form parse falls through to returning the value, strict
`strptime` raises a format-mismatch `ValueError`), then the strict
ISO time and date branches, then the single-enum branch, and
otherwise the identity. -/
def Parameter.convert (p : Parameter) (D : Delegates) (value : Value) (allowed : List PyType) :
    Except PyErr Value :=
  if PyType.tNone ∈ allowed ∧ value.isNone = true then .ok value
  else if PyType.tDatetime ∈ allowed then
    (match p.datetime_format with
     | none =>
       match D.freeParse (pyStr value) with
       | some dt => .ok (.vDatetime dt)
       | none => .ok value
     | some fmt =>
       match D.strptime (pyStr value) fmt with
       | some dt => .ok (.vDatetime dt)
       | none => .error (.valueError ("datetime format does not match: " ++ fmt)))
  else if PyType.tTime ∈ allowed then
    (match D.timeFromIso (pyStr value) with
     | some t => .ok (.vTime t)
     | none => .error (.valueError "time format does not match ISO 8601"))
  else if PyType.tDate ∈ allowed then
    (match D.dateFromIso (pyStr value) with
     | some d => .ok (.vDate d)
     | none => .error (.valueError "date format does not match ISO 8601"))
  else enumBranch value allowed

/-- The int stage of `Query.convert` (`query.py` lines 20-25):
`value = int(value)`, catching only `ValueError` (a failed parse
leaves the value unchanged; any other exception propagates). -/
def intStage (allowed : List PyType) (v : Value) : Except PyErr Value :=
  if PyType.tInt ∈ allowed then
    match pyInt v with
    | .ok n => .ok (.vInt n)
    | .error (.valueError _) => .ok v
    | .error e => .error e
  else .ok v

/-- The float stage of `Query.convert` (`query.py` lines 26-31):
`value = float(value)`, catching only `ValueError`.  Note that when
the int stage already replaced the string by an int, `float()`
succeeds on it. -/
def floatStage (allowed : List PyType) (v : Value) : Except PyErr Value :=
  if PyType.tFloat ∈ allowed then
    match pyFloat v with
    | .ok f => .ok (.vFloat f)
    | .error (.valueError _) => .ok v
    | .error e => .error e
  else .ok v

/-- Model of Python `str.lower()`, character by character (exact on
ASCII, which is all the engine compares against). -/
def pyLower (s : String) : String :=
  String.mk (s.toList.map Char.toLower)

/-- The bool stage of `Query.convert` (`query.py` lines 32-37):
`value.lower()` is compared against the literals `"true"` and
`"false"`; any other string is left unchanged.  When an earlier stage
already replaced the string by an int or float, `.lower()` does not
exist and Python raises `AttributeError`. -/
def boolStage (allowed : List PyType) (v : Value) : Except PyErr Value :=
  if PyType.tBool ∈ allowed then
    match v with
    | .vStr s =>
      if pyLower s = "true" then .ok (.vBool true)
      else if pyLower s = "false" then .ok (.vBool false)
      else .ok v
    | _ => .error (.attributeError "object has no attribute lower")
  else .ok v

/-- The dict stage of `Query.convert` (`query.py` lines 38-43):
`json.loads(value)`, where a parse failure (`ValueError`) is turned
into the hard failure `invalid JSON`; `json.loads` on a non-string
raises `TypeError`, which is not caught. -/
def dictStage (D : Delegates) (allowed : List PyType) (v : Value) : Except PyErr Value :=
  if PyType.tDict ∈ allowed then
    match v with
    | .vStr s =>
      match D.jsonLoads s with
      | some j => .ok j
      | none => .error (.valueError "invalid JSON")
    | _ => .error (.typeError "the JSON object must be str bytes or bytearray")
  else .ok v

/-- Translation of `Query.convert` (`query.py` lines 16-45): when the
raw value is a string, the four coercion stages run in the fixed
source order int, float, bool, dict, rebinding `value` as they go;
then the base `Parameter.convert` runs on the result.  The debug
`print` calls of the source are non-functional and not modelled. -/
def Query.convert (p : Parameter) (D : Delegates) (value : Value) (allowed : List PyType) :
    Except PyErr Value :=
  (match value with
   | .vStr _ =>
     intStage allowed value >>= fun v1 =>
     floatStage allowed v1 >>= fun v2 =>
     boolStage allowed v2 >>= fun v3 =>
     dictStage D allowed v3
   | _ => .ok value) >>= fun v =>
  Parameter.convert p D v allowed

/-- Two-digit helper for the concrete date parsers below. -/
def twoDigits (a b : Char) : Option Nat :=
  if a.isDigit ∧ b.isDigit then some ((a.toNat - 48) * 10 + (b.toNat - 48)) else none

/-- Four-digit helper for the concrete date parsers below. -/
def fourDigits (a b c d : Char) : Option Nat :=
  if a.isDigit ∧ b.isDigit ∧ c.isDigit ∧ d.isDigit then
    some (((a.toNat - 48) * 10 + (b.toNat - 48)) * 100 + (c.toNat - 48) * 10 + (d.toNat - 48))
  else none

/-- Concrete model of `datetime.strptime` restricted to the format
string `"%Y-%m-%d"`: four year digits, a dash, two month digits, a
dash, two day digits, with month and day in calendar range, giving
midnight of that date.  Any other format string is treated as never
matching.  Used only to instantiate the delegate record in witnesses
and counterexamples. -/
def strptimeYmd (s : String) (fmt : String) : Option PyDatetime :=
  if fmt = "%Y-%m-%d" then
    match s.toList with
    | [y1, y2, y3, y4, h1, m1, m2, h2, d1, d2] =>
      if h1 = '-' ∧ h2 = '-' then
        match fourDigits y1 y2 y3 y4, twoDigits m1 m2, twoDigits d1 d2 with
        | some y, some mo, some d =>
          if 1 ≤ mo ∧ mo ≤ 12 ∧ 1 ≤ d ∧ d ≤ 31 then some ⟨y, mo, d, 0, 0, 0⟩ else none
        | _, _, _ => none
      else none
    | _ => none
  else none

/-- Concrete model of free-form date-time parsing
(`dateutil.parser.parse`) restricted to the two ISO shapes
`YYYY-MM-DDTHH:MM:SS` and `YYYY-MM-DD`; everything else fails.  Used
only to instantiate the delegate record. -/
def freeParseIso (s : String) : Option PyDatetime :=
  match s.toList with
  | [y1, y2, y3, y4, h1, m1, m2, h2, d1, d2, tsep, hh1, hh2, c1, mi1, mi2, c2, s1, s2] =>
    if h1 = '-' ∧ h2 = '-' ∧ tsep = 'T' ∧ c1 = ':' ∧ c2 = ':' then
      match fourDigits y1 y2 y3 y4, twoDigits m1 m2, twoDigits d1 d2,
            twoDigits hh1 hh2, twoDigits mi1 mi2, twoDigits s1 s2 with
      | some y, some mo, some d, some hh, some mi, some ss =>
        if 1 ≤ mo ∧ mo ≤ 12 ∧ 1 ≤ d ∧ d ≤ 31 ∧ hh ≤ 23 ∧ mi ≤ 59 ∧ ss ≤ 59 then
          some ⟨y, mo, d, hh, mi, ss⟩
        else none
      | _, _, _, _, _, _ => none
    else none
  | _ =>
    match strptimeYmd s "%Y-%m-%d" with
    | some dt => some dt
    | none => none

/-- Concrete model of `time.fromisoformat` restricted to `HH:MM:SS`.
Used only to instantiate the delegate record. -/
def timeFromIsoDemo (s : String) : Option PyTime :=
  match s.toList with
  | [h1, h2, c1, m1, m2, c2, s1, s2] =>
    if c1 = ':' ∧ c2 = ':' then
      match twoDigits h1 h2, twoDigits m1 m2, twoDigits s1 s2 with
      | some hh, some mi, some ss =>
        if hh ≤ 23 ∧ mi ≤ 59 ∧ ss ≤ 59 then some ⟨hh, mi, ss⟩ else none
      | _, _, _ => none
    else none
  | _ => none

/-- Concrete model of `date.fromisoformat` via the strict
`YYYY-MM-DD` parser.  Used only to instantiate the delegate record. -/
def dateFromIsoDemo (s : String) : Option PyDate :=
  match strptimeYmd s "%Y-%m-%d" with
  | some dt => some ⟨dt.year, dt.month, dt.day⟩
  | none => none

/-- Concrete model of `json.loads` restricted to the JSON literals
exercised below (ints, the boolean and null literals, the empty
object); every other string is a parse failure.  Used only to
instantiate the delegate record. -/
def jsonLoadsDemo (s : String) : Option Value :=
  if s = "true" then some (.vBool true)
  else if s = "false" then some (.vBool false)
  else if s = "null" then some .vNone
  else if s = "\x7b\x7d" then some (.vDict [])
  else (parseIntLit s).map Value.vInt

/-- Concrete model of the truthiness of `re.match(pattern, s)`
restricted to literal patterns (no metacharacters): such a pattern
matches exactly when it occurs at the start of the string, which is
the prefix-anchored semantics of `re.match`.  Used only to
instantiate the delegate record. -/
def reMatchLiteral (pat s : String) : Bool :=
  listAtStart pat.toList s.toList

/-- A concrete delegate record for witnesses and counterexamples.
The schema delegate accepts every document. -/
def demoDelegates : Delegates where
  freeParse := freeParseIso
  strptime := strptimeYmd
  timeFromIso := timeFromIsoDemo
  dateFromIso := dateFromIsoDemo
  jsonLoads := jsonLoadsDemo
  reMatch := reMatchLiteral
  jsonschemaValidate := fun _ _ => none

@[simp] theorem pyBind_ok {α β : Type} (a : α) (f : α → Except PyErr β) :
    (Except.ok a >>= f) = f a := rfl

@[simp] theorem pyBind_error {α β : Type} (e : PyErr) (f : α → Except PyErr β) :
    ((Except.error e : Except PyErr α) >>= f) = Except.error e := rfl

theorem validateUnit_empty (D : Delegates) (b : Bool) (v : Value) :
    validateUnit D Parameter.empty b v = .ok () := rfl

theorem validateAll_empty (D : Delegates) (b : Bool) (xs : List Value) :
    validateAll D Parameter.empty b xs = .ok () := by
  induction xs with
  | nil => rfl
  | cons v rest ih => simp [validateAll, validateUnit_empty, ih]

theorem empty_min_list_length : Parameter.empty.min_list_length = none := rfl

theorem empty_max_list_length : Parameter.empty.max_list_length = none := rfl

theorem empty_func : Parameter.empty.func = none := rfl

theorem empty_json_schema : Parameter.empty.json_schema = none := rfl

theorem validate_empty (D : Delegates) (v : Value) :
    Parameter.empty.validate D v = .ok true := by
  cases v <;>
    simp [Parameter.validate, checkMinList, checkMaxList, checkFuncList, checkSchemaIf,
      empty_min_list_length, empty_max_list_length, empty_func, empty_json_schema,
      validateAll_empty]

/-- C9: for every value `v` and the Constraint Set with no constraints
set, `Parameter.validate` passes (returns `True`) without raising any
failure. -/
theorem c9_no_constraints_passes (D : Delegates) (v : Value) :
    Parameter.empty.validate D v = .ok true :=
  validate_empty D v

/-- C1: evaluation of `Parameter.validate` at the failing input of the
custom-predicate return-shape contract.  A predicate returning the
integer `42` makes `func_helper` fall through both `type(...)` tests
and validation silently passes, contradicting the claimed distinct
misconfiguration failure; the boolean and 2-tuple shapes, and the
malformed-tuple misconfiguration branch, behave as the claim states. -/
theorem c1_func_return_shapes :
    (({ func := some (fun _ => Value.vInt 42) } : Parameter).validate
        demoDelegates (.vInt 3) = .ok true) ∧
    (({ func := some (fun _ => Value.vTuple [.vBool false, .vStr "too big"]) } : Parameter).validate
        demoDelegates (.vInt 3) = .error (.valueError "too big")) ∧
    (({ func := some (fun _ => Value.vBool false) } : Parameter).validate
        demoDelegates (.vInt 3) =
          .error (.valueError "value does not match the validator function.")) ∧
    (({ func := some (fun _ => Value.vTuple [.vStr "x"]) } : Parameter).validate
        demoDelegates (.vInt 3) =
          .error (.valueError ("validator function returned incorrect type: " ++
            pyTypeStr (.vTuple [.vStr "x"]) ++ ", should return bool or (bool, str)"))) :=
  ⟨rfl, rfl, rfl, rfl⟩

/-- C10: on raw query string `"1"` with acceptable types
`[bool, int]`, the int stage of `Query.convert` turns the string into
an int and the bool stage then calls `.lower()` on it, so conversion
terminates with an `AttributeError` — neither a converted value nor a
`ValueError` validation failure. -/
theorem c10_bool_stage_attribute_error (D : Delegates) (p : Parameter) :
    Query.convert p D (.vStr "1") [PyType.tBool, PyType.tInt] =
      .error (.attributeError "object has no attribute lower") := rfl

/-- C4: for every list value, `Parameter.validate` checks the min and
max list-length bounds before evaluating any element-level
constraint: a violated min bound fails with the min-length reason and
a violated max bound (with the min bound satisfied or absent) fails
with the max-length reason, for arbitrary elements — in particular
for elements that are individually invalid. -/
theorem c4_list_length_before_elements (D : Delegates) (p : Parameter) (xs : List Value) :
    (∀ m, p.min_list_length = some m → xs.length < m →
      p.validate D (.vList xs) =
        .error (.valueError ("must have at least " ++ toString m ++ " items."))) ∧
    (∀ m, p.max_list_length = some m → m < xs.length →
      (∀ k, p.min_list_length = some k → k ≤ xs.length) →
      p.validate D (.vList xs) =
        .error (.valueError ("must have have a maximum of " ++ toString m ++ " items."))) := by
  constructor
  · intro m hm hlt
    simp [Parameter.validate, checkMinList, hm, hlt]
  · intro m hm hgt hmin
    have hminok : checkMinList p xs = .ok () := by
      cases hk : p.min_list_length with
      | none => simp [checkMinList, hk]
      | some k =>
        have hle := hmin k hk
        simp [checkMinList, hk, Nat.not_lt.mpr hle]
    simp [Parameter.validate, hminok, checkMaxList, hm, hgt]

/-- Witness for C4: a one-element list with an element that would fail
the numeric bound still fails on the min list length, and a
two-element list of such elements still fails on the max list
length. -/
theorem c4_witness :
    (({ min_list_length := some 2, min_int := some 10 } : Parameter).validate demoDelegates
      (.vList [.vStr "bad"]) = .error (.valueError "must have at least 2 items.")) ∧
    (({ max_list_length := some 1, min_int := some 10 } : Parameter).validate demoDelegates
      (.vList [.vStr "a", .vStr "b"]) =
        .error (.valueError "must have have a maximum of 1 items.")) := by
  constructor
  · exact (c4_list_length_before_elements demoDelegates
      { min_list_length := some 2, min_int := some 10 } [.vStr "bad"]).1 2 rfl (by decide)
  · exact (c4_list_length_before_elements demoDelegates
      { max_list_length := some 1, min_int := some 10 } [.vStr "a", .vStr "b"]).2 1 rfl
      (by decide) (fun _ hk => nomatch hk)

/-- C3 (amended): with a regex pattern configured, a string unit fails
with a pattern reason exactly when the prefix-anchored regex delegate
does not match it; a non-string unit is passed raw to `re.match`,
which raises a `TypeError`, so the check does not apply to the string
form of non-string units. -/
theorem c3_pattern_prefix_anchored (D : Delegates) (pat : String) :
    (∀ s : String, ({ pattern := some pat } : Parameter).validate D (.vStr s) =
      (if D.reMatch pat s then .ok true
       else .error (.valueError ("pattern does not match: " ++ pat ++ ".")))) ∧
    (∀ n : Int, ({ pattern := some pat } : Parameter).validate D (.vInt n) =
      .error (.typeError "expected string or bytes-like object")) := by
  constructor
  · intro s
    by_cases h : D.reMatch pat s <;>
      simp [Parameter.validate, validateAll, validateUnit, checkMinStr, checkMaxStr,
        checkWhitelist, checkBlacklist, checkMinInt, checkMaxInt, checkPattern,
        checkFuncUnit, h]
  · intro n
    simp [Parameter.validate, validateAll, validateUnit, checkMinStr, checkMaxStr,
      checkWhitelist, checkBlacklist, checkMinInt, checkMaxInt, checkPattern, checkFuncUnit]

/-- Counterexample for C3: for the non-string unit `5` with pattern
`"5"`, the pattern does match a prefix of the string form `"5"` of the
unit, yet `Parameter.validate` raises a `TypeError` instead of
passing — the check is applied to the raw value, not to its string
form as the claim states. -/
theorem c3_counterexample :
    (({ pattern := some "5" } : Parameter).validate demoDelegates (.vInt 5) =
      .error (.typeError "expected string or bytes-like object")) ∧
    demoDelegates.reMatch "5" (pyStr (.vInt 5)) = true :=
  ⟨rfl, rfl⟩

/-- C8: with `bool` the only acceptable type, boolean coercion in
`Query.convert` maps exactly the case-insensitive literals `"true"`
and `"false"` to the corresponding boolean and leaves every other
string unchanged (neither coerced nor failed); and a coerced boolean
passes constraint-free validation, so the four literal casings
round-trip to the corresponding boolean. -/
theorem c8_bool_coercion_round_trip (D : Delegates) (p : Parameter) (s : String) :
    (Query.convert p D (.vStr s) [PyType.tBool] =
      .ok (if pyLower s = "true" then Value.vBool true
           else if pyLower s = "false" then Value.vBool false
           else Value.vStr s)) ∧
    (∀ b : Bool, Parameter.empty.validate D (.vBool b) = .ok true) := by
  constructor
  · by_cases h1 : pyLower s = "true"
    · simp [Query.convert, intStage, floatStage, boolStage, dictStage, Parameter.convert,
        enumBranch, h1, Value.isNone]
    · by_cases h2 : pyLower s = "false" <;>
        simp [Query.convert, intStage, floatStage, boolStage, dictStage, Parameter.convert,
          enumBranch, h1, h2, Value.isNone]
  · intro b
    exact validate_empty D (.vBool b)

/-- C5: with a date-time type among the acceptable types,
`Parameter.convert` with a configured `datetime_format` parses
strictly via the `strptime` delegate and raises the format-mismatch
`ValueError` on any parse error, while without a format it attempts
the free-form parse and on failure falls through without raising,
returning the value unchanged for union fallback. -/
theorem c5_datetime_strict_and_freeform (D : Delegates) (p : Parameter) (v : Value)
    (allowed : List PyType) (hdt : PyType.tDatetime ∈ allowed) (hv : v.isNone = false) :
    (∀ fmt, p.datetime_format = some fmt →
      (∀ dt, D.strptime (pyStr v) fmt = some dt →
        p.convert D v allowed = .ok (.vDatetime dt)) ∧
      (D.strptime (pyStr v) fmt = none →
        p.convert D v allowed =
          .error (.valueError ("datetime format does not match: " ++ fmt)))) ∧
    (p.datetime_format = none →
      (∀ dt, D.freeParse (pyStr v) = some dt →
        p.convert D v allowed = .ok (.vDatetime dt)) ∧
      (D.freeParse (pyStr v) = none → p.convert D v allowed = .ok v)) := by
  have hcond : ¬(PyType.tNone ∈ allowed ∧ v.isNone = true) := by
    rintro ⟨-, h⟩
    rw [hv] at h
    exact Bool.false_ne_true h
  refine ⟨fun fmt hfmt => ⟨fun dt hdtp => ?_, fun hnone => ?_⟩,
          fun hfmt => ⟨fun dt hdtp => ?_, fun hnone => ?_⟩⟩
  · simp [Parameter.convert, hcond, hdt, hfmt, hdtp]
  · simp [Parameter.convert, hcond, hdt, hfmt, hnone]
  · simp [Parameter.convert, hcond, hdt, hfmt, hdtp]
  · simp [Parameter.convert, hcond, hdt, hfmt, hnone]

/-- Witness for C5: with format string percent-Y-percent-m-percent-d,
the input 2024-01-15 converts to year 2024, month 1, day 15 and the
input 01/15/2024 fails with the format-mismatch reason; with no
format, an ISO timestamp free-form parses and a non-date string falls
through unchanged. -/
theorem c5_witness :
    (({ datetime_format := some "%Y-%m-%d" } : Parameter).convert demoDelegates
      (.vStr "2024-01-15") [PyType.tDatetime] =
        .ok (.vDatetime ⟨2024, 1, 15, 0, 0, 0⟩)) ∧
    (({ datetime_format := some "%Y-%m-%d" } : Parameter).convert demoDelegates
      (.vStr "01/15/2024") [PyType.tDatetime] =
        .error (.valueError "datetime format does not match: %Y-%m-%d")) ∧
    (Parameter.empty.convert demoDelegates (.vStr "2024-01-15T10:00:00") [PyType.tDatetime] =
      .ok (.vDatetime ⟨2024, 1, 15, 10, 0, 0⟩)) ∧
    (Parameter.empty.convert demoDelegates (.vStr "not-a-date") [PyType.tDatetime] =
      .ok (.vStr "not-a-date")) := by
  refine ⟨?_, ?_, ?_, ?_⟩
  · exact ((c5_datetime_strict_and_freeform demoDelegates
      { datetime_format := some "%Y-%m-%d" } (.vStr "2024-01-15") [PyType.tDatetime]
      (by decide) rfl).1 "%Y-%m-%d" rfl).1 ⟨2024, 1, 15, 0, 0, 0⟩ rfl
  · exact ((c5_datetime_strict_and_freeform demoDelegates
      { datetime_format := some "%Y-%m-%d" } (.vStr "01/15/2024") [PyType.tDatetime]
      (by decide) rfl).1 "%Y-%m-%d" rfl).2 rfl
  · exact ((c5_datetime_strict_and_freeform demoDelegates
      Parameter.empty (.vStr "2024-01-15T10:00:00") [PyType.tDatetime]
      (by decide) rfl).2 rfl).1 ⟨2024, 1, 15, 10, 0, 0⟩ rfl
  · exact ((c5_datetime_strict_and_freeform demoDelegates
      Parameter.empty (.vStr "not-a-date") [PyType.tDatetime]
      (by decide) rfl).2 rfl).2 rfl

/-- C7: when the acceptable-types list is exactly one enum type,
`Parameter.convert` coerces to the backing type first for integer
enums (`int()`, whose own exceptions propagate) and then constructs
the member, failing with the enum-membership `ValueError` when the
coerced value maps to no member; a string-backed enum looks the
string up directly among its member values. -/
theorem c7_single_enum_conversion (D : Delegates) (p : Parameter) (v : Value) (e : EnumType) :
    (e.kind = EnumKind.intEnum →
      (∀ n : Int, pyInt v = .ok n →
        (n ∈ e.intMembers →
          p.convert D v [PyType.tEnum e] = .ok (.vEnum e (.vInt n))) ∧
        (n ∉ e.intMembers →
          p.convert D v [PyType.tEnum e] =
            .error (.valueError (toString n ++ " is not a valid " ++ e.ename)))) ∧
      (∀ err, pyInt v = .error err →
        p.convert D v [PyType.tEnum e] = .error err)) ∧
    (e.kind = EnumKind.strEnum →
      ∀ s, v = .vStr s →
        (s ∈ e.strMembers →
          p.convert D v [PyType.tEnum e] = .ok (.vEnum e (.vStr s))) ∧
        (s ∉ e.strMembers →
          p.convert D v [PyType.tEnum e] =
            .error (.valueError (s ++ " is not a valid " ++ e.ename)))) := by
  have hred : p.convert D v [PyType.tEnum e] = enumConstruct e v := by
    simp [Parameter.convert, enumBranch]
  refine ⟨fun hkind => ⟨fun n hn => ⟨fun hm => ?_, fun hm => ?_⟩, fun err herr => ?_⟩,
          fun hkind s hs => ⟨fun hm => ?_, fun hm => ?_⟩⟩
  · rw [hred]; simp [enumConstruct, hkind, hn, hm]
  · rw [hred]; simp [enumConstruct, hkind, hn, hm]
  · rw [hred]; simp [enumConstruct, hkind, herr]
  · rw [hred]; simp [enumConstruct, hkind, hs, hm]
  · rw [hred]; simp [enumConstruct, hkind, hs, hm]

/-- Witness for C7: for the integer-backed enum `Fruit` with member
values 1 and 2, converting raw `"2"` yields the member of value 2 and
converting raw `"99"` fails with the membership error. -/
theorem c7_witness :
    (Parameter.empty.convert demoDelegates (.vStr "2")
      [PyType.tEnum ⟨"Fruit", .intEnum, [1, 2], []⟩] =
        .ok (.vEnum ⟨"Fruit", .intEnum, [1, 2], []⟩ (.vInt 2))) ∧
    (Parameter.empty.convert demoDelegates (.vStr "99")
      [PyType.tEnum ⟨"Fruit", .intEnum, [1, 2], []⟩] =
        .error (.valueError "99 is not a valid Fruit")) := by
  constructor
  · exact (((c7_single_enum_conversion demoDelegates Parameter.empty (.vStr "2")
      ⟨"Fruit", .intEnum, [1, 2], []⟩).1 rfl).1 2 rfl).1 (by decide)
  · exact (((c7_single_enum_conversion demoDelegates Parameter.empty (.vStr "99")
      ⟨"Fruit", .intEnum, [1, 2], []⟩).1 rfl).1 99 rfl).2 (by decide)

theorem intStage_perm {ts ts' : List PyType} (h : ts.Perm ts') :
    ∀ v, intStage ts v = intStage ts' v := by
  intro v
  unfold intStage
  simp only [h.mem_iff]

theorem floatStage_perm {ts ts' : List PyType} (h : ts.Perm ts') :
    ∀ v, floatStage ts v = floatStage ts' v := by
  intro v
  unfold floatStage
  simp only [h.mem_iff]

theorem boolStage_perm {ts ts' : List PyType} (h : ts.Perm ts') :
    ∀ v, boolStage ts v = boolStage ts' v := by
  intro v
  unfold boolStage
  simp only [h.mem_iff]

theorem dictStage_perm (D : Delegates) {ts ts' : List PyType} (h : ts.Perm ts') :
    ∀ v, dictStage D ts v = dictStage D ts' v := by
  intro v
  unfold dictStage
  simp only [h.mem_iff]

theorem enumBranch_perm {ts ts' : List PyType} (h : ts.Perm ts') :
    ∀ v, enumBranch v ts = enumBranch v ts' := by
  intro v
  have hlen := h.length_eq
  cases ts with
  | nil =>
    cases ts' with
    | nil => rfl
    | cons c m => simp only [List.length_nil, List.length_cons] at hlen; omega
  | cons a l =>
    cases l with
    | nil =>
      cases ts' with
      | nil => simp only [List.length_nil, List.length_cons] at hlen; omega
      | cons c m =>
        cases m with
        | nil =>
          have hac : a = c := by
            have hmem : a ∈ [c] := h.mem_iff.mp (by simp)
            simpa using hmem
          rw [hac]
        | cons d m2 => simp only [List.length_nil, List.length_cons] at hlen; omega
    | cons b l2 =>
      cases ts' with
      | nil => simp only [List.length_nil, List.length_cons] at hlen; omega
      | cons c m =>
        cases m with
        | nil => simp only [List.length_nil, List.length_cons] at hlen; omega
        | cons d m2 => rfl

theorem convert_perm (p : Parameter) (D : Delegates) {ts ts' : List PyType}
    (h : ts.Perm ts') : ∀ v, p.convert D v ts = p.convert D v ts' := by
  intro v
  unfold Parameter.convert
  simp only [h.mem_iff, enumBranch_perm h]

theorem queryConvert_perm (p : Parameter) (D : Delegates) {ts ts' : List PyType}
    (h : ts.Perm ts') : ∀ v, Query.convert p D v ts = Query.convert p D v ts' := by
  intro v
  unfold Query.convert
  cases v <;>
    simp only [intStage_perm h, floatStage_perm h, boolStage_perm h, dictStage_perm D h,
      convert_perm p D h]

/-- C2 (amended): `Query.convert` applies the query-string coercions
in a fixed internal order — int, then float, then bool, then dict —
independent of the order of the acceptable-types list (permuting the
list never changes the result); for acceptable types `[bool, int]`
and raw string `"true"` the result is still the boolean `true`,
because the literal `"true"` parses as neither int nor float before
the bool stage matches it. -/
theorem c2_fixed_coercion_order (D : Delegates) (p : Parameter) :
    (∀ (v : Value) (ts ts' : List PyType), ts.Perm ts' →
      Query.convert p D v ts = Query.convert p D v ts') ∧
    Query.convert p D (.vStr "true") [PyType.tBool, PyType.tInt] = .ok (.vBool true) := by
  constructor
  · intro v ts ts' h
    exact queryConvert_perm p D h v
  · rfl

/-- Witness for C2 (amended): permuting `[int, bool]` to
`[bool, int]` leaves the conversion of raw `"x"` unchanged, and raw
`"true"` with `[bool, int]` converts to the boolean `true`. -/
theorem c2_witness :
    (Query.convert Parameter.empty demoDelegates (.vStr "x") [PyType.tInt, PyType.tBool] =
      Query.convert Parameter.empty demoDelegates (.vStr "x") [PyType.tBool, PyType.tInt]) ∧
    Query.convert Parameter.empty demoDelegates (.vStr "true") [PyType.tBool, PyType.tInt] =
      .ok (.vBool true) := by
  constructor
  · exact (c2_fixed_coercion_order demoDelegates Parameter.empty).1 (.vStr "x")
      [PyType.tInt, PyType.tBool] [PyType.tBool, PyType.tInt]
      (List.Perm.swap PyType.tBool PyType.tInt [])
  · exact (c2_fixed_coercion_order demoDelegates Parameter.empty).2

/-- Counterexample for C2: with acceptable types `[bool, int]` and raw
query string `"7"`, no coercion wins at all — the int stage (which
runs first, although the list names bool first) replaces the string
by the int `7` and the bool stage then raises an `AttributeError` —
instead of the conversion returning the first non-failing coercion in
list order (bool would not match `"7"`, so that would be the integer
`7`). -/
theorem c2_counterexample :
    Query.convert Parameter.empty demoDelegates (.vStr "7") [PyType.tBool, PyType.tInt] =
      .error (.attributeError "object has no attribute lower") := rfl

/-- C6 (amended): when the value reaching the dict stage is still a
string — in particular when `dict` is the only acceptable type —
`Query.convert` parses it as JSON and raises the hard `invalid JSON`
`ValueError` when parsing fails, never falling through; by contrast
the int, float and bool stages leave an uncoercible string unchanged
without failing. -/
theorem c6_dict_hard_failure (D : Delegates) (p : Parameter) (s : String) :
    (∀ j, D.jsonLoads s = some j →
      Query.convert p D (.vStr s) [PyType.tDict] = .ok j) ∧
    (D.jsonLoads s = none →
      Query.convert p D (.vStr s) [PyType.tDict] = .error (.valueError "invalid JSON")) ∧
    (parseIntLit s = none → parseFloatLit s = none →
      pyLower s ≠ "true" → pyLower s ≠ "false" →
      Query.convert p D (.vStr s) [PyType.tInt, PyType.tFloat, PyType.tBool] =
        .ok (.vStr s)) := by
  refine ⟨fun j hj => ?_, fun hn => ?_, fun h1 h2 h3 h4 => ?_⟩
  · simp [Query.convert, intStage, floatStage, boolStage, dictStage, hj,
      Parameter.convert, enumBranch]
  · simp [Query.convert, intStage, floatStage, boolStage, dictStage, hn]
  · simp [Query.convert, intStage, floatStage, boolStage, dictStage, pyInt, pyFloat,
      h1, h2, h3, h4, Parameter.convert, enumBranch]

/-- Witness for C6 (amended): with `dict` the only acceptable type,
the malformed document fails hard with the invalid-JSON reason and
the empty JSON object parses; with only soft-coercion types
acceptable, the uncoercible string `"abc"` is returned unchanged. -/
theorem c6_witness :
    (Query.convert Parameter.empty demoDelegates (.vStr "\x7bnot valid json") [PyType.tDict] =
      .error (.valueError "invalid JSON")) ∧
    (Query.convert Parameter.empty demoDelegates (.vStr "\x7b\x7d") [PyType.tDict] =
      .ok (.vDict [])) ∧
    (Query.convert Parameter.empty demoDelegates (.vStr "abc")
      [PyType.tInt, PyType.tFloat, PyType.tBool] = .ok (.vStr "abc")) := by
  refine ⟨?_, ?_, ?_⟩
  · exact (c6_dict_hard_failure demoDelegates Parameter.empty "\x7bnot valid json").2.1 rfl
  · exact (c6_dict_hard_failure demoDelegates Parameter.empty "\x7b\x7d").1 (.vDict []) rfl
  · exact (c6_dict_hard_failure demoDelegates Parameter.empty "abc").2.2 rfl rfl
      (by decide) (by decide)

/-- Counterexample for C6: the raw query string `"5"` with acceptable
types `[int, dict]` is valid JSON (the delegate parses it as the
number 5), yet `Query.convert` raises a `TypeError` instead of
parsing the string as JSON: the int stage has already replaced the
string by the int `5`, and `json.loads` on a non-string raises an
exception that the dict stage does not catch. -/
theorem c6_counterexample :
    (Query.convert Parameter.empty demoDelegates (.vStr "5") [PyType.tInt, PyType.tDict] =
      .error (.typeError "the JSON object must be str bytes or bytearray")) ∧
    demoDelegates.jsonLoads "5" = some (.vInt 5) :=
  ⟨rfl, rfl⟩
